import Mathlib

/-!
Verification development for the playwright-mirror session-coordination
protocol: the server-side party registry / session state machine / change
relay (`src/playwright-mirror/src/index.ts`, class `SignalingServer`) and
the leader-side change dispatcher (`LeaderClient`).

The embedding is shallow: each TypeScript method becomes a pure Lean
function from the object's state to a new state together with an `Output`
record collecting the observable effects of the call (messages written to
websocket channels, events emitted on the event bus, channels closed).
Websocket channels are identified by natural numbers; the random party ids
minted by `onRegistrationMessage` are passed in as parameters.  JavaScript
`x || default` on configuration fields is modelled faithfully, including
its behaviour on the falsy values `0` and `false`.
-/

/-- A signal attached to a recorded action, e.g. `{name: "navigation", url}`.
`url` is `none` when the property is absent. -/
structure Signal where
  name : String
  url : Option String := none
deriving DecidableEq

/-- The `action` object of a recorded change.  The source inspects the
dynamic properties `name`, `selector`, `text`, `url` and `signals`;
properties that a given action kind does not carry are `none`. -/
structure ActionData where
  name : String
  selector : Option String := none
  text : Option String := none
  url : Option String := none
  signals : List Signal := []
deriving DecidableEq

/-- `ActionInContext`: one recorded change as the leader client sends it —
a frame reference, the action, and the commit flag (absent ⇒ `false`,
matching JavaScript truthiness of `undefined`). -/
structure ActionInContext where
  frame : Nat
  action : ActionData
  committed : Bool := false
deriving DecidableEq

/-- The mutable state of `LeaderClient` that `sendChange` reads and writes:
whether a websocket channel exists (`this._channel`), the
`_sentUncommittedChange` flag and `_lastChangeSent`. -/
structure LeaderClient where
  hasChannel : Bool := true
  sentUncommittedChange : Bool := false
  lastChangeSent : Option ActionInContext := none
deriving DecidableEq

/-- `LeaderClient.SIGNAL_NAVIGATION_DELAY`: the fixed delay (ms) before a
synthesized navigation change is dispatched. -/
def LeaderClient.SIGNAL_NAVIGATION_DELAY : Nat := 500

/-- `LeaderClient._sameChange(change)`: structural equality of `change`
against `this._lastChangeSent`, per action kind.  The source's trailing
fall-through (returning `undefined`, which is falsy) is modelled as
`false`. -/
def LeaderClient.sameChange (st : LeaderClient) (change : ActionInContext) : Bool :=
  match st.lastChangeSent with
  | none => false
  | some last =>
    if change.action.name ≠ last.action.name then false
    else if change.action.name = "fill" ∧ last.action.name = "fill" then
      decide (change.action.selector = last.action.selector ∧
              change.action.text = last.action.text)
    else if change.action.name = "click" ∧ last.action.name = "click" then
      decide (change.action.selector = last.action.selector)
    else if change.action.name = "navigate" ∧ last.action.name = "navigate" then
      decide (change.action.url = last.action.url)
    else false

/-- `LeaderClient.sendIncludedNavigation(action)`: when a change has
already been sent and `action` is a `fill` whose signal list contains a
signal named `navigation` carrying a truthy url, return the synthesized
`navigate` change that the source schedules (via `setTimeout` with
`SIGNAL_NAVIGATION_DELAY`) for dispatch through `sendChange`; otherwise
`none`.  `signals.find(...)` takes the first signal named `navigation`;
an absent or empty url is falsy in JavaScript, so nothing is scheduled. -/
def LeaderClient.sendIncludedNavigation (st : LeaderClient) (action : ActionInContext) :
    Option ActionInContext :=
  if st.lastChangeSent = none then none
  else if action.action.name ≠ "fill" then none
  else
    let signals := action.action.signals
    if signals.length = 0 then none
    else
      match (signals.find? (fun signal => signal.name == "navigation")).bind Signal.url with
      | none => none
      | some url =>
        if url = "" then none
        else some { frame := action.frame
                  , action := { name := "navigate", url := some url, signals := [] }
                  , committed := false }

/-- The observable outcome of one `LeaderClient.sendChange` call: the new
client state, the change transmitted on the channel during the call (if
any), and the synthesized navigation change scheduled for deferred
dispatch (if any). -/
structure SendChangeResult where
  state : LeaderClient
  transmitted : Option ActionInContext
  scheduled : Option ActionInContext
deriving DecidableEq

/-- `LeaderClient.sendChange(change)`: no-op without a channel or on a null
change; otherwise first scan for an embedded navigation signal, then
suppress the send exactly when `_sameChange(change)` holds and the last
transmitted change was uncommitted; a committed call clears
`_sentUncommittedChange` before the early return. -/
def LeaderClient.sendChange (st : LeaderClient) (change? : Option ActionInContext) :
    SendChangeResult :=
  if st.hasChannel = false then { state := st, transmitted := none, scheduled := none }
  else
    match change? with
    | none => { state := st, transmitted := none, scheduled := none }
    | some change =>
      let scheduled := st.sendIncludedNavigation change
      let shouldSend : Bool :=
        if st.sameChange change && st.sentUncommittedChange then false else true
      let st1 := if change.committed then { st with sentUncommittedChange := false } else st
      if shouldSend = false then { state := st1, transmitted := none, scheduled := scheduled }
      else
        { state := { st1 with lastChangeSent := some change
                            , sentUncommittedChange := !change.committed }
        , transmitted := some change
        , scheduled := scheduled }

/-- Running `sendChange` over a list of arguments, collecting the changes
actually transmitted on the channel, in order. -/
def LeaderClient.sendAll (st : LeaderClient) :
    List (Option ActionInContext) → LeaderClient × List ActionInContext
  | [] => (st, [])
  | c :: cs =>
    let r := st.sendChange c
    let (st2, rest) := r.state.sendAll cs
    (st2, r.transmitted.toList ++ rest)

/-- A concrete `fill` change on selector `"S"`, used in concrete runs. -/
def fillS (text : String) (committed : Bool) : ActionInContext :=
  { frame := 0
  , action := { name := "fill", selector := some "S", text := some text, signals := [] }
  , committed := committed }

/-- A registered party as the server stores it: the websocket channel
(identified by a natural number) and the random id minted at registration
(`{ channel: ws, id }` in `onRegistrationMessage`).  Equality of two
`WebSocketClient` values models JavaScript object identity for these
wrapper objects: `onRegistrationMessage` mints a fresh id per registration
message, so two wrappers for the same channel are distinct objects. -/
structure WebSocketClient where
  channel : Nat
  id : Nat
deriving DecidableEq

/-- The `management` codes the server sends. -/
inductive ManagementCode
  | CONNECTION_SUCCESS
  | PARTIES_CHANGED
  | CLOSE
deriving DecidableEq

/-- The `error` codes the server sends. -/
inductive ErrorCode
  | LEADER_ALREADY_CONNECTED
  | FOLLOWER_CANNOT_BE_LEADER
  | LEADER_CANNOT_BE_FOLLOWER
  | FOLLOWER_ALREADY_CONNECTED
deriving DecidableEq

/-- A message the server writes to some channel. -/
inductive ServerMessage
  | management (code : ManagementCode)
  | error (code : ErrorCode)
  | leaderChange (change : ActionInContext)
deriving DecidableEq

/-- An event emitted on the server's event bus, with its payload.  The
event counter and timestamps of `emitEvent` are not modelled; events are
recorded in emission order. -/
inductive EmittedEvent
  | leaderAction (change : ActionInContext)
  | sessionStarted (leaderId : Option Nat) (followerIds : List Nat)
  | sessionCompromised (isLeader : Bool) (isFollower : Bool)
  | leaderConnected (id : Nat)
  | followerConnected (id : Nat)
  | followerDisconnected (id : Nat)
  | leaderDisconnected (id : Nat)
deriving DecidableEq

/-- The observable effects of one server call: messages sent (channel,
payload) in order, events emitted in order, channels closed in order. -/
structure Output where
  sends : List (Nat × ServerMessage) := []
  events : List EmittedEvent := []
  closed : List Nat := []
deriving DecidableEq

/-- Effects of two consecutive program points, combined. -/
def Output.app (a b : Output) : Output :=
  { sends := a.sends ++ b.sends
  , events := a.events ++ b.events
  , closed := a.closed ++ b.closed }

/-- The mutable state of a `SignalingServer` instance relevant to the
coordination protocol (`_wss`, host and port are connection plumbing and
are not modelled; `waitingForExpectedFollowers` is the source's
`_waitingForExpectedFollowers`). -/
structure SignalingServer where
  STRICT : Bool
  expectedFollowers : Nat
  leader : Option WebSocketClient
  followers : List WebSocketClient
  waitingForExpectedFollowers : Bool
  blockedActions : List String
deriving DecidableEq

/-- The constructor parameters consumed by the core (`host`, `port` and
`onAction` omitted); `none` models an absent (undefined) property. -/
structure SignalingServerParams where
  expectedFollowers : Option Nat := none
  strict : Option Bool := none
  blockedActions : Option (List String) := none

/-- JavaScript `x || d` for an optional number: `undefined` and the falsy
number `0` both yield the default. -/
def jsOrNat (x : Option Nat) (d : Nat) : Nat :=
  match x with
  | none => d
  | some n => if n = 0 then d else n

/-- JavaScript `x || d` for an optional boolean: `undefined` and `false`
both yield the default. -/
def jsOrBool (x : Option Bool) (d : Bool) : Bool :=
  match x with
  | none => d
  | some b => if b then b else d

/-- The `SignalingServer` constructor: `expectedFollowers || 1`,
`strict || true`, `blockedActions || []` (an array is always truthy, so
only an absent `blockedActions` takes the default). -/
def SignalingServer.new (params : SignalingServerParams) : SignalingServer :=
  { STRICT := jsOrBool params.strict true
  , expectedFollowers := jsOrNat params.expectedFollowers 1
  , leader := none
  , followers := []
  , waitingForExpectedFollowers := true
  , blockedActions := params.blockedActions.getD [] }

/-- `[this.leader, ...this.followers]` with the null leader skipped, as the
broadcast loops do with `if (!party) continue`. -/
def SignalingServer.parties (s : SignalingServer) : List WebSocketClient :=
  s.leader.toList ++ s.followers

/-- `sendServerCloseMessages`: broadcast the `CLOSE` management code to
every current party. -/
def SignalingServer.sendServerCloseMessages (s : SignalingServer) : Output :=
  { sends := s.parties.map (fun p => (p.channel, ServerMessage.management .CLOSE)) }

/-- `closeAllConnections`: broadcast `CLOSE`, then close the leader's
channel (if any) and every follower's channel. -/
def SignalingServer.closeAllConnections (s : SignalingServer) : Output :=
  { s.sendServerCloseMessages with closed := s.parties.map WebSocketClient.channel }

/-- `restart`: close all connections, then clear the leader and the
followers list and return to waiting for expected followers. -/
def SignalingServer.restart (s : SignalingServer) : SignalingServer × Output :=
  ( { s with leader := none, followers := [], waitingForExpectedFollowers := true }
  , s.closeAllConnections )

/-- `areExpectedPartiesConnected`: false without a leader or with fewer
followers than expected; otherwise also clears
`_waitingForExpectedFollowers` as a side effect. -/
def SignalingServer.areExpectedPartiesConnected (s : SignalingServer) :
    Bool × SignalingServer :=
  match s.leader with
  | none => (false, s)
  | some _ =>
    if s.followers.length < s.expectedFollowers then (false, s)
    else (true, { s with waitingForExpectedFollowers := false })

/-- `sendSetupCompleteMessages`: send `CONNECTION_SUCCESS` to the leader
(`this.leader?.channel.send`, so nothing is sent when the leader is null)
and emit `SESSION_STARTED` with the party ids. -/
def SignalingServer.sendSetupCompleteMessages (s : SignalingServer) : Output :=
  { sends :=
      match s.leader with
      | some l => [(l.channel, ServerMessage.management .CONNECTION_SUCCESS)]
      | none => []
  , events := [EmittedEvent.sessionStarted (s.leader.map WebSocketClient.id)
                (s.followers.map WebSocketClient.id)] }

/-- `sendSetupCompromizedMessages`: broadcast `PARTIES_CHANGED` to every
current party, emit `SESSION_COMPROMISED` with
`{isLeader: leader !== null, isFollower: followers.length > 0}`, then, in
strict mode, escalate to a full `restart`. -/
def SignalingServer.sendSetupCompromizedMessages (s : SignalingServer) :
    SignalingServer × Output :=
  let broadcast : Output :=
    { sends := s.parties.map (fun p => (p.channel, ServerMessage.management .PARTIES_CHANGED))
    , events := [EmittedEvent.sessionCompromised s.leader.isSome (!s.followers.isEmpty)] }
  if s.STRICT then
    let (s2, o) := s.restart
    (s2, broadcast.app o)
  else (s, broadcast)

/-- `registerLeader(client)`: refuse with `LEADER_ALREADY_CONNECTED` (and
close the offending channel) when a leader is already set; refuse with
`FOLLOWER_CANNOT_BE_LEADER` when `this.followers.includes(client)` — note
the source compares the wrapper objects, not channels; otherwise set the
leader, emit `LEADER_CONNECTED`, and send the setup-complete messages when
the expected parties are connected.  The message/close handlers the source
attaches are modelled separately as `leaderCloseHandler` and
`processLeaderMessage`. -/
def SignalingServer.registerLeader (s : SignalingServer) (client : WebSocketClient) :
    SignalingServer × Output :=
  if s.leader.isSome then
    (s, { sends := [(client.channel, ServerMessage.error .LEADER_ALREADY_CONNECTED)]
        , closed := [client.channel] })
  else if client ∈ s.followers then
    (s, { sends := [(client.channel, ServerMessage.error .FOLLOWER_CANNOT_BE_LEADER)] })
  else
    let s1 := { s with leader := some client }
    let o1 : Output := { events := [EmittedEvent.leaderConnected client.id] }
    let (q, s2) := s1.areExpectedPartiesConnected
    if q then (s2, o1.app s2.sendSetupCompleteMessages) else (s2, o1)

/-- `registerFollower(client)`: refuse with `LEADER_CANNOT_BE_FOLLOWER`
when the client's channel is the leader's channel (`this.leader?.channel
=== client.channel`); refuse with `FOLLOWER_ALREADY_CONNECTED` when
`this.followers.includes(client)` (object identity again); otherwise, if
the server is no longer waiting for expected followers, first run the
compromise path, then push the client, emit `FOLLOWER_CONNECTED`, send
`CONNECTION_SUCCESS` to the client, and finally send the setup-complete
messages when the expected parties are connected. -/
def SignalingServer.registerFollower (s : SignalingServer) (client : WebSocketClient) :
    SignalingServer × Output :=
  if s.leader.map WebSocketClient.channel = some client.channel then
    (s, { sends := [(client.channel, ServerMessage.error .LEADER_CANNOT_BE_FOLLOWER)] })
  else if client ∈ s.followers then
    (s, { sends := [(client.channel, ServerMessage.error .FOLLOWER_ALREADY_CONNECTED)] })
  else
    let (s1, o1) :=
      if s.waitingForExpectedFollowers = false then s.sendSetupCompromizedMessages
      else (s, ({} : Output))
    let s2 := { s1 with followers := s1.followers ++ [client] }
    let o2 : Output :=
      { sends := [(client.channel, ServerMessage.management .CONNECTION_SUCCESS)]
      , events := [EmittedEvent.followerConnected client.id] }
    let (q, s3) := s2.areExpectedPartiesConnected
    let o3 := if q then s3.sendSetupCompleteMessages else ({} : Output)
    (s3, (o1.app o2).app o3)

/-- The close handler `registerLeader` attaches to the leader's channel:
null the leader, emit `LEADER_DISCONNECTED`, then run the compromise
path. -/
def SignalingServer.leaderCloseHandler (s : SignalingServer) (client : WebSocketClient) :
    SignalingServer × Output :=
  let s1 := { s with leader := none }
  let (s2, o) := s1.sendSetupCompromizedMessages
  (s2, Output.app { events := [EmittedEvent.leaderDisconnected client.id] } o)

/-- The close handler `registerFollower` attaches to a follower's channel:
drop every follower whose channel is the closed channel, emit
`FOLLOWER_DISCONNECTED`, then run the compromise path. -/
def SignalingServer.followerCloseHandler (s : SignalingServer) (client : WebSocketClient) :
    SignalingServer × Output :=
  let s1 := { s with
    followers := s.followers.filter (fun follower => follower.channel ≠ client.channel) }
  let (s2, o) := s1.sendSetupCompromizedMessages
  (s2, Output.app { events := [EmittedEvent.followerDisconnected client.id] } o)

/-- `processLeaderChange(change)`: drop the change (only a console log)
when its action name is block-listed; otherwise emit `LEADER_ACTION` and
send the change as a `leaderChange` message to every follower in list
order.  The registry state is never mutated. -/
def SignalingServer.processLeaderChange (s : SignalingServer) (change : ActionInContext) :
    Output :=
  if change.action.name ∈ s.blockedActions then {}
  else
    { sends := s.followers.map (fun follower =>
        (follower.channel, ServerMessage.leaderChange change))
    , events := [EmittedEvent.leaderAction change] }

/-- A decoded message arriving on the leader's channel. -/
inductive LeaderMessage
  | change (data : ActionInContext)
  | unknown (t : String)
deriving DecidableEq

/-- `processLeaderMessage`: dispatch `{type:"change"}` to
`processLeaderChange`; any other type only logs. -/
def SignalingServer.processLeaderMessage (s : SignalingServer) (m : LeaderMessage) : Output :=
  match m with
  | .change data => s.processLeaderChange data
  | .unknown _ => {}

/-- `onRegistrationMessage(data, ws)`: mint an id (random in the source,
here a parameter) and dispatch on `data.type`, building the fresh wrapper
object `{ channel: ws, id }` that is passed to the register methods. -/
def SignalingServer.onRegistrationMessage (s : SignalingServer)
    (regType : String) (ws : Nat) (id : Nat) : SignalingServer × Output :=
  if regType = "leader" then s.registerLeader { channel := ws, id := id }
  else if regType = "follower" then s.registerFollower { channel := ws, id := id }
  else (s, {})

/-- C1: the claimed registry invariant fails on the code.  When the same
websocket channel (here channel 1) sends `register{type:"follower"}`
twice, `onRegistrationMessage` mints a fresh wrapper object each time, so
the `followers.includes(client)` guard never fires and the channel is
pushed twice: the followers list ends with duplicate connection handle 1.
Likewise, a channel already registered as a follower (channel 1) is then
accepted as leader, so the leader's connection handle is also a
follower's. -/
theorem C1_registry_invariant_violated :
    ((((SignalingServer.new {}).onRegistrationMessage "follower" 1 7).1.onRegistrationMessage
        "follower" 1 8).1.followers.map WebSocketClient.channel = [1, 1] ∧
      ¬ ((((SignalingServer.new {}).onRegistrationMessage "follower" 1 7).1.onRegistrationMessage
        "follower" 1 8).1.followers.map WebSocketClient.channel).Nodup) ∧
    ((((SignalingServer.new {}).onRegistrationMessage "follower" 1 7).1.onRegistrationMessage
        "leader" 1 9).1.leader.map WebSocketClient.channel = some 1 ∧
      1 ∈ (((SignalingServer.new {}).onRegistrationMessage "follower" 1 7).1.onRegistrationMessage
        "leader" 1 9).1.followers.map WebSocketClient.channel) := by
  decide

/-- C5: the claimed boundary behaviour fails on the code.  The constructor
computes `params.expectedFollowers || 1`, and `0 || 1` is `1` in
JavaScript, so a server configured with `expectedFollowers = 0` actually
expects one follower: after the leader registers, the quorum check fails,
no `CONNECTION_SUCCESS` is sent, no `SESSION_STARTED` is emitted, and the
server is still waiting for parties. -/
theorem C5_zero_expected_followers_coerced :
    (SignalingServer.new { expectedFollowers := some 0 }).expectedFollowers = 1 ∧
    ((SignalingServer.new { expectedFollowers := some 0 }).registerLeader
        { channel := 1, id := 7 }).1.waitingForExpectedFollowers = true ∧
    ((SignalingServer.new { expectedFollowers := some 0 }).registerLeader
        { channel := 1, id := 7 }).2.sends = [] ∧
    ((SignalingServer.new { expectedFollowers := some 0 }).registerLeader
        { channel := 1, id := 7 }).2.events = [EmittedEvent.leaderConnected 7] := by
  decide

/-- C6: the claimed soft-monitoring mode fails on the code.  The
constructor computes `params.strict || true`, and `false || true` is
`true`, so `STRICT` is `true` even when the server is constructed with
`strict = false`.  Consequently, in a session built with `strict = false`
(leader on channel 1, sole follower on channel 2, session active), the
follower's disconnect still escalates to a full restart: the leader's
channel is closed and leader and followers are cleared. -/
theorem C6_strict_false_still_restarts :
    (SignalingServer.new { strict := some false }).STRICT = true ∧
    (((((SignalingServer.new { strict := some false }).registerLeader
          { channel := 1, id := 7 }).1.registerFollower
          { channel := 2, id := 8 }).1.followerCloseHandler { channel := 2, id := 8 }).1.leader
        = none ∧
      ((((SignalingServer.new { strict := some false }).registerLeader
          { channel := 1, id := 7 }).1.registerFollower
          { channel := 2, id := 8 }).1.followerCloseHandler
          { channel := 2, id := 8 }).1.followers = [] ∧
      ((((SignalingServer.new { strict := some false }).registerLeader
          { channel := 1, id := 7 }).1.registerFollower
          { channel := 2, id := 8 }).1.followerCloseHandler
          { channel := 2, id := 8 }).1.waitingForExpectedFollowers = true ∧
      ((((SignalingServer.new { strict := some false }).registerLeader
          { channel := 1, id := 7 }).1.registerFollower
          { channel := 2, id := 8 }).1.followerCloseHandler
          { channel := 2, id := 8 }).2.closed = [1]) := by
  decide

/-- C3 counterexample: a committed change IS suppressed on account of the
previously transmitted change having been uncommitted.  After an
uncommitted `fill(S,"ab")` is transmitted, the committed `fill(S,"ab")`
transmits nothing, although no earlier *committed* transmitted change
exists: the suppression test `_sameChange && _sentUncommittedChange` runs
before `_sentUncommittedChange` is cleared. -/
theorem C3_commit_suppressed_by_uncommitted :
    (LeaderClient.sendChange {} (some (fillS "ab" false))).transmitted
        = some (fillS "ab" false) ∧
    (fillS "ab" false).committed = false ∧
    (fillS "ab" true).committed = true ∧
    ((LeaderClient.sendChange {} (some (fillS "ab" false))).state.sendChange
        (some (fillS "ab" true))).transmitted = none := by
  decide

/-- C3 amended: a committed change is transmitted unless it is
structurally the same (`_sameChange`) as the last transmitted change and
the `_sentUncommittedChange` flag is still set, i.e. the last transmission
was uncommitted; equivalently a commit is never suppressed on account of a
prior *committed* send (which leaves the flag cleared), and every
committed call clears the flag. -/
theorem C3_commit_suppression_rule (st : LeaderClient) (change : ActionInContext)
    (hch : st.hasChannel = true) (hc : change.committed = true) :
    ((st.sendChange (some change)).transmitted = none ↔
      (st.sameChange change = true ∧ st.sentUncommittedChange = true)) ∧
    (st.sendChange (some change)).state.sentUncommittedChange = false := by
  by_cases h1 : st.sameChange change = true <;>
    by_cases h2 : st.sentUncommittedChange = true <;>
      simp [LeaderClient.sendChange, hch, hc, h1, h2]

/-- Witness for `C3_commit_suppression_rule` at the concrete state reached
after transmitting an uncommitted `fill(S,"ab")`, with the committed
`fill(S,"ab")` as the incoming change. -/
theorem C3_commit_suppression_rule_witness :
    ((LeaderClient.sendChange
        { hasChannel := true, sentUncommittedChange := true
        , lastChangeSent := some (fillS "ab" false) }
        (some (fillS "ab" true))).transmitted = none ↔
      ((LeaderClient.sameChange
        { hasChannel := true, sentUncommittedChange := true
        , lastChangeSent := some (fillS "ab" false) } (fillS "ab" true)) = true ∧
       (true : Bool) = true)) ∧
    (LeaderClient.sendChange
        { hasChannel := true, sentUncommittedChange := true
        , lastChangeSent := some (fillS "ab" false) }
        (some (fillS "ab" true))).state.sentUncommittedChange = false :=
  C3_commit_suppression_rule
    { hasChannel := true, sentUncommittedChange := true
    , lastChangeSent := some (fillS "ab" false) }
    (fillS "ab" true) rfl rfl

/-- C4 counterexample: the claimed run transmits two changes, not one,
before the committed call, and the committed call transmits nothing.
`_sameChange` on two fills requires the same selector AND the same text,
so the uncommitted `fill(S,"ab")` after the uncommitted `fill(S,"a")` is
not suppressed; the committed `fill(S,"ab")` then is suppressed because
it equals the last transmitted change, which was uncommitted. -/
theorem C4_fill_run_transmits_two :
    (LeaderClient.sendAll {} [some (fillS "a" false), some (fillS "ab" false)]).2.length = 2 ∧
    (LeaderClient.sendAll {}
        [some (fillS "a" false), some (fillS "ab" false), some (fillS "ab" true)]).2
      = [fillS "a" false, fillS "ab" false] := by
  decide

/-- C2: in strict mode, from an active session whose sole follower is `F`
and whose leader is `L`, the close of `F`'s channel first removes `F` from
the followers list, then broadcasts `PARTIES_CHANGED` to the remaining
party (the leader), emits `FOLLOWER_DISCONNECTED` and then
`SESSION_COMPROMISED`, and finally restarts: `CLOSE` is sent to the
leader, its channel is closed, and leader and followers are cleared with
the server again waiting for parties. -/
theorem C2_sole_follower_disconnect (s : SignalingServer) (L F : WebSocketClient)
    (hstrict : s.STRICT = true) (hl : s.leader = some L) (hf : s.followers = [F])
    (hw : s.waitingForExpectedFollowers = false) :
    (s.followerCloseHandler F).2.sends =
        [(L.channel, ServerMessage.management .PARTIES_CHANGED),
         (L.channel, ServerMessage.management .CLOSE)] ∧
    (s.followerCloseHandler F).2.events =
        [EmittedEvent.followerDisconnected F.id, EmittedEvent.sessionCompromised true false] ∧
    (s.followerCloseHandler F).1.leader = none ∧
    (s.followerCloseHandler F).1.followers = [] ∧
    (s.followerCloseHandler F).1.waitingForExpectedFollowers = true := by
  simp [SignalingServer.followerCloseHandler, SignalingServer.sendSetupCompromizedMessages,
        SignalingServer.restart, SignalingServer.closeAllConnections,
        SignalingServer.sendServerCloseMessages, SignalingServer.parties, Output.app,
        hstrict, hl, hf, hw]

/-- Witness for `C2_sole_follower_disconnect`: leader on channel 1,
sole follower on channel 2, in a concrete active strict session. -/
theorem C2_sole_follower_disconnect_witness :
    (SignalingServer.followerCloseHandler
        { STRICT := true, expectedFollowers := 1, leader := some { channel := 1, id := 7 }
        , followers := [{ channel := 2, id := 8 }], waitingForExpectedFollowers := false
        , blockedActions := [] } { channel := 2, id := 8 }).2.sends =
        [(1, ServerMessage.management .PARTIES_CHANGED),
         (1, ServerMessage.management .CLOSE)] ∧
    (SignalingServer.followerCloseHandler
        { STRICT := true, expectedFollowers := 1, leader := some { channel := 1, id := 7 }
        , followers := [{ channel := 2, id := 8 }], waitingForExpectedFollowers := false
        , blockedActions := [] } { channel := 2, id := 8 }).2.events =
        [EmittedEvent.followerDisconnected 8, EmittedEvent.sessionCompromised true false] ∧
    (SignalingServer.followerCloseHandler
        { STRICT := true, expectedFollowers := 1, leader := some { channel := 1, id := 7 }
        , followers := [{ channel := 2, id := 8 }], waitingForExpectedFollowers := false
        , blockedActions := [] } { channel := 2, id := 8 }).1.leader = none ∧
    (SignalingServer.followerCloseHandler
        { STRICT := true, expectedFollowers := 1, leader := some { channel := 1, id := 7 }
        , followers := [{ channel := 2, id := 8 }], waitingForExpectedFollowers := false
        , blockedActions := [] } { channel := 2, id := 8 }).1.followers = [] ∧
    (SignalingServer.followerCloseHandler
        { STRICT := true, expectedFollowers := 1, leader := some { channel := 1, id := 7 }
        , followers := [{ channel := 2, id := 8 }], waitingForExpectedFollowers := false
        , blockedActions := [] } { channel := 2, id := 8 }).1.waitingForExpectedFollowers
        = true :=
  C2_sole_follower_disconnect
    { STRICT := true, expectedFollowers := 1, leader := some { channel := 1, id := 7 }
    , followers := [{ channel := 2, id := 8 }], waitingForExpectedFollowers := false
    , blockedActions := [] }
    { channel := 1, id := 7 } { channel := 2, id := 8 } rfl rfl rfl rfl

/-- The navigation change scheduled by a `sendChange` call is exactly what
`sendIncludedNavigation` computes, whenever a channel exists. -/
theorem LeaderClient.sendChange_scheduled (st : LeaderClient) (change : ActionInContext)
    (hch : st.hasChannel = true) :
    (st.sendChange (some change)).scheduled = st.sendIncludedNavigation change := by
  simp only [LeaderClient.sendChange, hch, Bool.true_eq_false, if_false]
  split <;> rfl

/-- C7: a `fill` change whose signal scan finds a `navigation` signal
carrying (truthy) url `U`, sent while a prior change has already been
transmitted, schedules (after the fixed 500 ms delay, for dispatch through
the same `sendChange` pipeline) exactly one synthesized `navigate` change
with url `U`, the frame of the fill, and an empty signal list. -/
theorem C7_navigation_roundtrip (st : LeaderClient) (change : ActionInContext) (U : String)
    (hch : st.hasChannel = true)
    (hprev : st.lastChangeSent ≠ none)
    (hfill : change.action.name = "fill")
    (hfind : (change.action.signals.find? (fun signal => signal.name == "navigation")).bind
        Signal.url = some U)
    (hU : U ≠ "") :
    (st.sendChange (some change)).scheduled =
      some { frame := change.frame
           , action := { name := "navigate", url := some U, signals := [] }
           , committed := false } ∧
    LeaderClient.SIGNAL_NAVIGATION_DELAY = 500 := by
  have hlen : ¬ change.action.signals.length = 0 := by
    intro h
    rw [List.length_eq_zero] at h
    rw [h] at hfind
    simp at hfind
  rw [LeaderClient.sendChange_scheduled st change hch]
  refine ⟨?_, rfl⟩
  simp only [LeaderClient.sendIncludedNavigation, hprev, hfill, hlen, hfind,
    if_false, ite_false, if_neg hU]
  simp [hprev, hlen, hU]

/-- Witness for `C7_navigation_roundtrip`: a committed `fill` on frame 3
carrying a navigation signal with url `"https://u"`, sent from a state
that has already transmitted a change. -/
theorem C7_navigation_roundtrip_witness :
    (LeaderClient.sendChange
        { hasChannel := true, sentUncommittedChange := false
        , lastChangeSent := some (fillS "a" false) }
        (some { frame := 3
              , action := { name := "fill", selector := some "S", text := some "t"
                          , signals := [{ name := "navigation", url := some "https://u" }] }
              , committed := true })).scheduled =
      some { frame := 3
           , action := { name := "navigate", url := some "https://u", signals := [] }
           , committed := false } ∧
    LeaderClient.SIGNAL_NAVIGATION_DELAY = 500 :=
  C7_navigation_roundtrip
    { hasChannel := true, sentUncommittedChange := false
    , lastChangeSent := some (fillS "a" false) }
    { frame := 3
    , action := { name := "fill", selector := some "S", text := some "t"
                , signals := [{ name := "navigation", url := some "https://u" }] }
    , committed := true }
    "https://u" rfl (by decide) rfl (by decide) (by decide)

/-- C8: a `change` message from the leader whose action name is
block-listed is dropped silently — nothing is sent to any follower and no
event is emitted; otherwise the change is fanned out verbatim as a
`leaderChange` message to every follower in insertion order and exactly a
`LEADER_ACTION` event is emitted. -/
theorem C8_relay_blocklist (s : SignalingServer) (change : ActionInContext) :
    (change.action.name ∈ s.blockedActions →
      (s.processLeaderMessage (.change change)).sends = [] ∧
      (s.processLeaderMessage (.change change)).events = []) ∧
    (change.action.name ∉ s.blockedActions →
      (s.processLeaderMessage (.change change)).sends
        = s.followers.map (fun follower =>
            (follower.channel, ServerMessage.leaderChange change)) ∧
      (s.processLeaderMessage (.change change)).events
        = [EmittedEvent.leaderAction change]) := by
  constructor <;> intro h <;>
    simp [SignalingServer.processLeaderMessage, SignalingServer.processLeaderChange, h]

/-- Witness for `C8_relay_blocklist`: a server with block-list
`["click"]` and one follower on channel 2; a `click` change is dropped,
a `fill` change is relayed to channel 2 with the `LEADER_ACTION` event. -/
theorem C8_relay_blocklist_witness :
    (SignalingServer.processLeaderMessage
        { STRICT := true, expectedFollowers := 1, leader := some { channel := 1, id := 7 }
        , followers := [{ channel := 2, id := 8 }], waitingForExpectedFollowers := false
        , blockedActions := ["click"] }
        (.change { frame := 0, action := { name := "click", selector := some "S" } })).sends
      = [] ∧
    (SignalingServer.processLeaderMessage
        { STRICT := true, expectedFollowers := 1, leader := some { channel := 1, id := 7 }
        , followers := [{ channel := 2, id := 8 }], waitingForExpectedFollowers := false
        , blockedActions := ["click"] }
        (.change (fillS "a" false))).sends
      = [(2, ServerMessage.leaderChange (fillS "a" false))] :=
  ⟨((C8_relay_blocklist
      { STRICT := true, expectedFollowers := 1, leader := some { channel := 1, id := 7 }
      , followers := [{ channel := 2, id := 8 }], waitingForExpectedFollowers := false
      , blockedActions := ["click"] }
      { frame := 0, action := { name := "click", selector := some "S" } }).1
      (by decide)).1,
   ((C8_relay_blocklist
      { STRICT := true, expectedFollowers := 1, leader := some { channel := 1, id := 7 }
      , followers := [{ channel := 2, id := 8 }], waitingForExpectedFollowers := false
      , blockedActions := ["click"] }
      (fillS "a" false)).2 (by decide)).1⟩

/-- C9: a follower registering while quorum is already met (the server no
longer waiting for parties) in strict mode triggers, before it is added:
the `PARTIES_CHANGED` broadcast to all previously registered parties, then
the restart (`CLOSE` to those parties, their channels closed, registry
cleared) — and only then is the late joiner pushed onto the now-empty
followers list and sent `CONNECTION_SUCCESS`; its channel is not among the
closed ones, and it ends as the sole registered party of a session again
waiting for parties. -/
theorem C9_late_joiner_survives_restart (s : SignalingServer) (L client : WebSocketClient)
    (hstrict : s.STRICT = true) (hl : s.leader = some L)
    (hw : s.waitingForExpectedFollowers = false)
    (hch : client.channel ≠ L.channel)
    (hmem : client ∉ s.followers)
    (hchf : ∀ f ∈ s.followers, f.channel ≠ client.channel) :
    (s.registerFollower client).1.leader = none ∧
    (s.registerFollower client).1.followers = [client] ∧
    (s.registerFollower client).1.waitingForExpectedFollowers = true ∧
    (s.registerFollower client).2.closed = (L :: s.followers).map WebSocketClient.channel ∧
    client.channel ∉ (s.registerFollower client).2.closed ∧
    (s.registerFollower client).2.sends =
      ((L :: s.followers).map (fun p => (p.channel, ServerMessage.management .PARTIES_CHANGED)))
        ++ ((L :: s.followers).map (fun p => (p.channel, ServerMessage.management .CLOSE)))
        ++ [(client.channel, ServerMessage.management .CONNECTION_SUCCESS)] := by
  have hmc : ¬ s.leader.map WebSocketClient.channel = some client.channel := by
    rw [hl]
    simp [Ne.symm hch]
  refine ⟨?_, ?_, ?_, ?_, ?_, ?_⟩ <;>
    simp [SignalingServer.registerFollower, SignalingServer.sendSetupCompromizedMessages,
          SignalingServer.restart, SignalingServer.closeAllConnections,
          SignalingServer.sendServerCloseMessages, SignalingServer.parties,
          SignalingServer.areExpectedPartiesConnected,
          SignalingServer.sendSetupCompleteMessages, Output.app,
          hmc, hmem, hstrict, hl, hw, Ne.symm hch]
  exact ⟨hch, hchf⟩

/-- Witness for `C9_late_joiner_survives_restart`: active strict session
(leader on channel 1, follower on channel 2), late joiner on channel 3. -/
theorem C9_late_joiner_survives_restart_witness :
    (SignalingServer.registerFollower
        { STRICT := true, expectedFollowers := 1, leader := some { channel := 1, id := 7 }
        , followers := [{ channel := 2, id := 8 }], waitingForExpectedFollowers := false
        , blockedActions := [] } { channel := 3, id := 9 }).1.leader = none ∧
    (SignalingServer.registerFollower
        { STRICT := true, expectedFollowers := 1, leader := some { channel := 1, id := 7 }
        , followers := [{ channel := 2, id := 8 }], waitingForExpectedFollowers := false
        , blockedActions := [] } { channel := 3, id := 9 }).1.followers
      = [{ channel := 3, id := 9 }] ∧
    (SignalingServer.registerFollower
        { STRICT := true, expectedFollowers := 1, leader := some { channel := 1, id := 7 }
        , followers := [{ channel := 2, id := 8 }], waitingForExpectedFollowers := false
        , blockedActions := [] } { channel := 3, id := 9 }).1.waitingForExpectedFollowers
      = true ∧
    (SignalingServer.registerFollower
        { STRICT := true, expectedFollowers := 1, leader := some { channel := 1, id := 7 }
        , followers := [{ channel := 2, id := 8 }], waitingForExpectedFollowers := false
        , blockedActions := [] } { channel := 3, id := 9 }).2.closed = [1, 2] ∧
    3 ∉ (SignalingServer.registerFollower
        { STRICT := true, expectedFollowers := 1, leader := some { channel := 1, id := 7 }
        , followers := [{ channel := 2, id := 8 }], waitingForExpectedFollowers := false
        , blockedActions := [] } { channel := 3, id := 9 }).2.closed ∧
    (SignalingServer.registerFollower
        { STRICT := true, expectedFollowers := 1, leader := some { channel := 1, id := 7 }
        , followers := [{ channel := 2, id := 8 }], waitingForExpectedFollowers := false
        , blockedActions := [] } { channel := 3, id := 9 }).2.sends =
      [(1, ServerMessage.management .PARTIES_CHANGED),
       (2, ServerMessage.management .PARTIES_CHANGED)]
        ++ [(1, ServerMessage.management .CLOSE), (2, ServerMessage.management .CLOSE)]
        ++ [(3, ServerMessage.management .CONNECTION_SUCCESS)] :=
  C9_late_joiner_survives_restart
    { STRICT := true, expectedFollowers := 1, leader := some { channel := 1, id := 7 }
    , followers := [{ channel := 2, id := 8 }], waitingForExpectedFollowers := false
    , blockedActions := [] }
    { channel := 1, id := 7 } { channel := 3, id := 9 }
    rfl rfl rfl (by decide) (by decide) (by decide)

/-- C10: every successful `registerFollower` call sends
`CONNECTION_SUCCESS` to the registering follower, whether or not quorum is
met; and (in the non-compromise case, with a leader present) the leader
receives a `CONNECTION_SUCCESS` from that call exactly when quorum is
reached by the registration, i.e. when the expected follower count is at
most the new followers count. -/
theorem C10_follower_always_gets_success (s : SignalingServer) (client : WebSocketClient)
    (h1 : s.leader.map WebSocketClient.channel ≠ some client.channel)
    (h2 : client ∉ s.followers) :
    (client.channel, ServerMessage.management .CONNECTION_SUCCESS)
        ∈ (s.registerFollower client).2.sends ∧
    (∀ L, s.leader = some L → s.waitingForExpectedFollowers = true →
      (((L.channel, ServerMessage.management .CONNECTION_SUCCESS)
          ∈ (s.registerFollower client).2.sends) ↔
        s.expectedFollowers ≤ s.followers.length + 1)) := by
  constructor
  · by_cases hw : s.waitingForExpectedFollowers = false <;>
      simp [SignalingServer.registerFollower, SignalingServer.sendSetupCompromizedMessages,
            SignalingServer.restart, SignalingServer.closeAllConnections,
            SignalingServer.sendServerCloseMessages, SignalingServer.parties,
            SignalingServer.areExpectedPartiesConnected,
            SignalingServer.sendSetupCompleteMessages, Output.app, h1, h2, hw]
  · intro L hL hw
    have hLc : L.channel ≠ client.channel := by
      intro h
      apply h1
      rw [hL]
      simp [h]
    by_cases hq : s.followers.length + 1 < s.expectedFollowers <;>
      simp [SignalingServer.registerFollower, SignalingServer.areExpectedPartiesConnected,
            SignalingServer.sendSetupCompleteMessages, Output.app, h1, h2, hw, hL, hq,
            hLc] <;>
      omega

/-- Witness for `C10_follower_always_gets_success`: leader on channel 1,
no followers yet, expected follower count 1, follower on channel 2
registering. -/
theorem C10_follower_always_gets_success_witness :
    (2, ServerMessage.management .CONNECTION_SUCCESS)
        ∈ (SignalingServer.registerFollower
            { STRICT := true, expectedFollowers := 1, leader := some { channel := 1, id := 7 }
            , followers := [], waitingForExpectedFollowers := true
            , blockedActions := [] } { channel := 2, id := 8 }).2.sends ∧
    (∀ L, (some { channel := 1, id := 7 } : Option WebSocketClient) = some L → true = true →
      (((L.channel, ServerMessage.management .CONNECTION_SUCCESS)
          ∈ (SignalingServer.registerFollower
              { STRICT := true, expectedFollowers := 1
              , leader := some { channel := 1, id := 7 }
              , followers := [], waitingForExpectedFollowers := true
              , blockedActions := [] } { channel := 2, id := 8 }).2.sends) ↔
        1 ≤ 0 + 1)) :=
  C10_follower_always_gets_success
    { STRICT := true, expectedFollowers := 1, leader := some { channel := 1, id := 7 }
    , followers := [], waitingForExpectedFollowers := true, blockedActions := [] }
    { channel := 2, id := 8 } (by decide) (by decide)

/-- C4 amended: the run uncommitted `fill(S,"a")`, uncommitted
`fill(S,"ab")`, committed `fill(S,"ab")` transmits exactly the two
uncommitted changes, in order; the committed call is suppressed and only
clears the uncommitted-send flag, with the last transmitted change
remaining the uncommitted `fill(S,"ab")`. -/
theorem C4_fill_run_amended :
    (LeaderClient.sendAll {}
        [some (fillS "a" false), some (fillS "ab" false), some (fillS "ab" true)]).2
      = [fillS "a" false, fillS "ab" false] ∧
    (LeaderClient.sendAll {}
        [some (fillS "a" false), some (fillS "ab" false), some (fillS "ab" true)]).1
      = { hasChannel := true, sentUncommittedChange := false
        , lastChangeSent := some (fillS "ab" false) } := by
  decide
